import Mathlib

/-
Shallow embedding of the `peer_name_service` ink! contract (src/lib.rs) of the
Decentralised-Naming-Service-SmartContract repository.

The contract state is the `PeerName` storage struct: two key-value mappings
(records: node to owner, resolvers: node to resolver), plus the `admin` and
`manager` singleton identities.  Each `#[ink(message)]` method is embedded as a
Lean function that takes the state and the caller identity (the ink environment
supplies `self.env().caller()`; here it is an explicit parameter) and returns
the `Result` value together with the post-state and the list of events emitted
during the call, in emission order.
-/

namespace PeerNameService

/-- Identities (ink `AccountId`) are opaque; embedded as natural numbers. -/
abbrev AccountId := Nat

/-- Resolver is the resolved pns value (`pub type Resolver = AccountId`). -/
abbrev Resolver := AccountId

/-- Node identifiers: the output of the hashing step (`[u8; 16]` in the
source).  Embedded as byte lists since only equality of nodes matters. -/
abbrev Node := List Nat

/-- The error enum of src/lib.rs (all twelve variants). -/
inductive Error where
  | NotOwner
  | NotApproved
  | TokenExists
  | TokenNotFound
  | CannotInsert
  | CannotRemove
  | CannotFetchValue
  | NotAllowed
  | UnauthorizedCaller
  | NameAlreadyExists
  | NameNotExists
  | CallerIsNotOwner
deriving DecidableEq, Repr

/-- The events the contract can emit, with their payloads as declared in
src/lib.rs.  `ChangeManager` carries two optional account ids
(`_current_manager`, `_new_manager`). -/
inductive Event where
  | NewOwner (node : Node) (owner : AccountId)
  | SubNode (owner : AccountId) (node : Node) (subnode : Node)
  | NewResolver (node : Node) (resolver : Resolver)
  | Transfer (node : Node) (owner : AccountId)
  | ChangeManager (currentManager : Option AccountId) (newManager : Option AccountId)
  | Register (node : Node) (fromAcct : AccountId)
  | SetAddress (name : Node) (fromAcct : AccountId)
      (oldAddress : Option AccountId) (newAddress : AccountId)
deriving DecidableEq, Repr

/-- Association-list embedding of `ink_storage::collections::HashMap` keyed by
nodes: lookup returns the value of the first matching key. -/
def mapGet (m : List (Node × AccountId)) (k : Node) : Option AccountId :=
  match m with
  | [] => none
  | (k', v) :: rest => if k' = k then some v else mapGet rest k

/-- HashMap `insert`: overwrite the existing entry for the key, or append. -/
def mapInsert (m : List (Node × AccountId)) (k : Node) (v : AccountId) :
    List (Node × AccountId) :=
  match m with
  | [] => [(k, v)]
  | (k', v') :: rest =>
      if k' = k then (k, v) :: rest else (k', v') :: mapInsert rest k v

/-- HashMap `take`: remove every entry for the key (keys are unique in the
real HashMap, so this is exactly the removal of the key). -/
def mapRemove (m : List (Node × AccountId)) (k : Node) : List (Node × AccountId) :=
  match m with
  | [] => []
  | (k', v) :: rest =>
      if k' = k then mapRemove rest k else (k', v) :: mapRemove rest k

/-- HashMap `contains_key`. -/
def mapContains (m : List (Node × AccountId)) (k : Node) : Bool :=
  (mapGet m k).isSome

/-- The `#[ink(storage)]` struct `PeerName`: records (domain node to owner),
resolvers (domain node to resolver), the admin id and the manager id. -/
structure PeerName where
  records : List (Node × AccountId)
  resolvers : List (Node × Resolver)
  admin : AccountId
  manager : AccountId
deriving DecidableEq, Repr

/-- Modelled from the spec: the `Blake2x128` digest consumed by `get_node` is
an external primitive of the execution environment (spec section 1 excludes
it; section 4.1 requires a deterministic function whose single-name form is
distinguishable from the pair form).  Embedded as an injective tagged
encoding of the name. -/
def get_node (domain : List Nat) : Node :=
  0 :: domain

/-- Modelled from the spec: `get_subnode` hashes the SCALE-encoded pair
`(domain, subdomain)`, a length-delimited encoding; embedded as a tagged
length-delimited pairing, distinguishable from `get_node`. -/
def get_subnode (domain subdomain : List Nat) : Node :=
  1 :: domain.length :: (domain ++ subdomain)

/-- The private guard `authorized`: true iff the caller equals the recorded
owner of the node (`Some(caller) == node_owner`). -/
def authorized (s : PeerName) (caller : AccountId) (node : Node) : Bool :=
  if some caller = mapGet s.records node then true else false

/-- Private helper `_set_owner`: inserts the owner record and emits a
`Transfer` event (it returns `true` in the source; the Lean embedding
returns the updated state and the emitted events). -/
def _set_owner (s : PeerName) (node : Node) (owner : AccountId) :
    PeerName × List Event :=
  ({ s with records := mapInsert s.records node owner },
   [Event.Transfer node owner])

/-- Private helper `_set_resolver`: inserts the resolver entry and emits a
`NewResolver` event. -/
def _set_resolver (s : PeerName) (node : Node) (resolver : Resolver) :
    PeerName × List Event :=
  ({ s with resolvers := mapInsert s.resolvers node resolver },
   [Event.NewResolver node resolver])

/-- Message `register_domain(domain, owner, resolver)`. -/
def register_domain (s : PeerName) (caller : AccountId) (domain : List Nat)
    (owner : AccountId) (resolver : Resolver) :
    Except Error Unit × PeerName × List Event :=
  if caller ≠ s.manager then
    (Except.error Error.UnauthorizedCaller, s, [])
  else
    let node := get_node domain
    if mapContains s.records node = true then
      (Except.error Error.NameAlreadyExists, s, [])
    else
      let r1 := _set_owner s node owner
      let r2 := _set_resolver r1.1 node resolver
      (Except.ok (), r2.1, r1.2 ++ r2.2 ++ [Event.Register node owner])

/-- Message `set_sub_domain(domain, subdomain, resolver)`. -/
def set_sub_domain (s : PeerName) (caller : AccountId)
    (domain subdomain : List Nat) (resolver : Resolver) :
    Except Error Unit × PeerName × List Event :=
  let node := get_node domain
  if mapContains s.records node = false then
    (Except.error Error.NameNotExists, s, [])
  else if authorized s caller node = false then
    (Except.error Error.UnauthorizedCaller, s, [])
  else
    let subnode := get_subnode domain subdomain
    if mapContains s.records subnode = true then
      (Except.error Error.NameAlreadyExists, s, [])
    else
      let r1 := _set_owner s subnode caller
      let r2 := _set_resolver r1.1 subnode resolver
      (Except.ok (), r2.1, r1.2 ++ r2.2 ++ [Event.Register subnode caller])

/-- Message `update_domain_resolver(domain, resolver)`. -/
def update_domain_resolver (s : PeerName) (caller : AccountId)
    (domain : List Nat) (resolver : Resolver) :
    Except Error Unit × PeerName × List Event :=
  let node := get_node domain
  if mapContains s.records node = false then
    (Except.error Error.NameNotExists, s, [])
  else if authorized s caller node = false then
    (Except.error Error.UnauthorizedCaller, s, [])
  else
    let r := _set_resolver s node resolver
    (Except.ok (), r.1, r.2)

/-- Message `update_subdomain_resolver(domain, resolver, subdomain)`. -/
def update_subdomain_resolver (s : PeerName) (caller : AccountId)
    (domain : List Nat) (resolver : Resolver) (subdomain : List Nat) :
    Except Error Unit × PeerName × List Event :=
  let node := get_node domain
  if mapContains s.records node = false then
    (Except.error Error.NameNotExists, s, [])
  else if authorized s caller node = false then
    (Except.error Error.UnauthorizedCaller, s, [])
  else
    let subnode := get_subnode domain subdomain
    let r := _set_resolver s subnode resolver
    (Except.ok (), r.1, r.2)

/-- Message `transfer_domain_ownership(domain, new_owner)`. -/
def transfer_domain_ownership (s : PeerName) (caller : AccountId)
    (domain : List Nat) (new_owner : AccountId) :
    Except Error Unit × PeerName × List Event :=
  let node := get_node domain
  if mapContains s.records node = false then
    (Except.error Error.NameNotExists, s, [])
  else if authorized s caller node = false then
    (Except.error Error.UnauthorizedCaller, s, [])
  else
    let r := _set_owner s node new_owner
    (Except.ok (), r.1, r.2 ++ [Event.Transfer node new_owner])

/-- Message `is_domain_exist(domain)`. -/
def is_domain_exist (s : PeerName) (domain : List Nat) : Bool :=
  if mapContains s.records (get_node domain) = true then true else false

/-- Message `renounce_ownership(domain)`: renounce by manager. -/
def renounce_ownership (s : PeerName) (caller : AccountId) (domain : List Nat) :
    Except Error Unit × PeerName × List Event :=
  let node := get_node domain
  if caller ≠ s.manager then
    (Except.error Error.UnauthorizedCaller, s, [])
  else if mapContains s.records node = false then
    (Except.error Error.NameNotExists, s, [])
  else
    (Except.ok (), { s with records := mapRemove s.records node }, [])

/-- Message `renounce_my_ownership(domain)`: renounce by the node owner. -/
def renounce_my_ownership (s : PeerName) (caller : AccountId) (domain : List Nat) :
    Except Error Unit × PeerName × List Event :=
  let node := get_node domain
  if authorized s caller node = false then
    (Except.error Error.UnauthorizedCaller, s, [])
  else if mapContains s.records node = false then
    (Except.error Error.NameNotExists, s, [])
  else
    (Except.ok (), { s with records := mapRemove s.records node }, [])

/-- Message `is_subdomain_exist(domain, subdomain)`. -/
def is_subdomain_exist (s : PeerName) (domain subdomain : List Nat) : Bool :=
  if mapContains s.records (get_subnode domain subdomain) = true then true
  else false

/-- Message `current_manager()`. -/
def current_manager (s : PeerName) : AccountId :=
  s.manager

/-- Message `change_manager(_manager)`: only the admin may change the
manager.  The source assigns `self.manager = _manager` first and only then
emits `ChangeManager \x7b _current_manager: Some(self.manager), _new_manager:
Some(_manager) \x7d`, so the event reads the already-updated field. -/
def change_manager (s : PeerName) (caller : AccountId) (newManager : AccountId) :
    Except Error Unit × PeerName × List Event :=
  if caller ≠ s.admin then
    (Except.error Error.UnauthorizedCaller, s, [])
  else
    let s1 := { s with manager := newManager }
    (Except.ok (), s1,
     [Event.ChangeManager (some s1.manager) (some newManager)])

/-- Message `owner(domain)`: the recorded owner of the domain node. -/
def owner (s : PeerName) (domain : List Nat) : Option AccountId :=
  mapGet s.records (get_node domain)

/-- Message `domain_resolver(domain)`. -/
def domain_resolver (s : PeerName) (domain : List Nat) : Option Resolver :=
  mapGet s.resolvers (get_node domain)

/-- Message `subdomain_resolver(domain, subdomain)`. -/
def subdomain_resolver (s : PeerName) (domain subdomain : List Nat) :
    Option Resolver :=
  mapGet s.resolvers (get_subnode domain subdomain)

instance decEqResult : DecidableEq (Except Error Unit)
  | Except.ok (), Except.ok () => isTrue rfl
  | Except.ok (), Except.error _ => isFalse (fun h => by cases h)
  | Except.error _, Except.ok () => isFalse (fun h => by cases h)
  | Except.error e, Except.error e' =>
      if h : e = e' then isTrue (by rw [h])
      else isFalse (fun hh => by cases hh; exact h rfl)

/-- Lookup after inserting at the same key yields the inserted value. -/
theorem mapGet_mapInsert_self (m : List (Node × AccountId)) (k : Node)
    (v : AccountId) : mapGet (mapInsert m k v) k = some v := by
  induction m with
  | nil => simp [mapInsert, mapGet]
  | cons p rest ih =>
      obtain ⟨k', v'⟩ := p
      by_cases h : k' = k <;> simp [mapInsert, mapGet, h, ih]

/-- Lookup at another key is unchanged by an insert. -/
theorem mapGet_mapInsert_ne (m : List (Node × AccountId)) (k k' : Node)
    (v : AccountId) (h : k' ≠ k) :
    mapGet (mapInsert m k v) k' = mapGet m k' := by
  have h' : ¬ k = k' := fun hh => h hh.symm
  induction m with
  | nil => simp [mapInsert, mapGet, h']
  | cons p rest ih =>
      obtain ⟨k0, v0⟩ := p
      by_cases h0 : k0 = k
      · subst h0
        simp [mapInsert, mapGet, h']
      · by_cases h1 : k0 = k' <;>
          simp [mapInsert, mapGet, h0, h1, ih, h, h']

/-- Lookup after removing the key yields `none`. -/
theorem mapGet_mapRemove_self (m : List (Node × AccountId)) (k : Node) :
    mapGet (mapRemove m k) k = none := by
  induction m with
  | nil => simp [mapRemove, mapGet]
  | cons p rest ih =>
      obtain ⟨k', v'⟩ := p
      by_cases h : k' = k <;> simp [mapRemove, mapGet, h, ih]

/-- Lookup at another key is unchanged by a removal. -/
theorem mapGet_mapRemove_ne (m : List (Node × AccountId)) (k k' : Node)
    (h : k' ≠ k) : mapGet (mapRemove m k) k' = mapGet m k' := by
  have h' : ¬ k = k' := fun hh => h hh.symm
  induction m with
  | nil => simp [mapRemove, mapGet]
  | cons p rest ih =>
      obtain ⟨k0, v0⟩ := p
      by_cases h0 : k0 = k
      · subst h0
        simp [mapRemove, mapGet, h', ih]
      · by_cases h1 : k0 = k' <;>
          simp [mapRemove, mapGet, h0, h1, ih, h, h']

/-- A concrete store used by counterexamples and witnesses: the domain `[1]`
is registered to account 10 with resolver 20; admin is 0, manager is 1. -/
def exState : PeerName :=
  { records := [(get_node [1], 10)]
    resolvers := [(get_node [1], 20)]
    admin := 0
    manager := 1 }

/-- C1 counterexample: in `exState` the domain `[1]` already has a Record,
yet a non-manager caller (account 2) gets `UnauthorizedCaller` from
`register_domain`, not `NameAlreadyExists`: the claim fails for callers
other than the Manager. -/
theorem C1_cex :
    mapContains exState.records (get_node [1]) = true ∧
    (2 : AccountId) ≠ exState.manager ∧
    (register_domain exState 2 [1] 7 8).1 =
      Except.error Error.UnauthorizedCaller ∧
    (register_domain exState 2 [1] 7 8).1 ≠
      Except.error Error.NameAlreadyExists := by
  decide

/-- C1 (amended): for a domain whose node already has a Record,
`register_domain` fails with `NameAlreadyExists` when the caller is the
Manager, and with `UnauthorizedCaller` otherwise — the Manager check
precedes the existence check. -/
theorem C1_register_existing_domain (s : PeerName) (c : AccountId)
    (d : List Nat) (o r : AccountId)
    (h : mapContains s.records (get_node d) = true) :
    (register_domain s c d o r).1 =
      Except.error (if c = s.manager then Error.NameAlreadyExists
                    else Error.UnauthorizedCaller) := by
  by_cases hc : c = s.manager <;> simp [register_domain, hc, h]

/-- C1 witness: the amended statement evaluated on `exState` with the
Manager (account 1) as caller. -/
theorem C1_witness :
    mapContains exState.records (get_node [1]) = true ∧
    (register_domain exState 1 [1] 7 8).1 =
      Except.error (if (1 : AccountId) = exState.manager
                    then Error.NameAlreadyExists
                    else Error.UnauthorizedCaller) :=
  ⟨by decide, C1_register_existing_domain exState 1 [1] 7 8 (by decide)⟩

/-- C2: every public mutating message is all-or-nothing — whenever it
returns an error, the post-state equals the pre-state (records, resolvers,
admin and manager all unchanged) and the emitted event list is empty. -/
theorem C2_all_or_nothing (s : PeerName) (c : AccountId) (d sd : List Nat)
    (o r : AccountId) :
    (∀ e, (register_domain s c d o r).1 = Except.error e →
      (register_domain s c d o r).2 = (s, [])) ∧
    (∀ e, (set_sub_domain s c d sd r).1 = Except.error e →
      (set_sub_domain s c d sd r).2 = (s, [])) ∧
    (∀ e, (update_domain_resolver s c d r).1 = Except.error e →
      (update_domain_resolver s c d r).2 = (s, [])) ∧
    (∀ e, (update_subdomain_resolver s c d r sd).1 = Except.error e →
      (update_subdomain_resolver s c d r sd).2 = (s, [])) ∧
    (∀ e, (transfer_domain_ownership s c d o).1 = Except.error e →
      (transfer_domain_ownership s c d o).2 = (s, [])) ∧
    (∀ e, (renounce_ownership s c d).1 = Except.error e →
      (renounce_ownership s c d).2 = (s, [])) ∧
    (∀ e, (renounce_my_ownership s c d).1 = Except.error e →
      (renounce_my_ownership s c d).2 = (s, [])) ∧
    (∀ e, (change_manager s c o).1 = Except.error e →
      (change_manager s c o).2 = (s, [])) := by
  refine ⟨?_, ?_, ?_, ?_, ?_, ?_, ?_, ?_⟩
  all_goals intro e he
  · simp only [register_domain] at he ⊢
    split_ifs at he ⊢ <;> simp_all
  · simp only [set_sub_domain] at he ⊢
    split_ifs at he ⊢ <;> simp_all
  · simp only [update_domain_resolver] at he ⊢
    split_ifs at he ⊢ <;> simp_all
  · simp only [update_subdomain_resolver] at he ⊢
    split_ifs at he ⊢ <;> simp_all
  · simp only [transfer_domain_ownership] at he ⊢
    split_ifs at he ⊢ <;> simp_all
  · simp only [renounce_ownership] at he ⊢
    split_ifs at he ⊢ <;> simp_all
  · simp only [renounce_my_ownership] at he ⊢
    split_ifs at he ⊢ <;> simp_all
  · simp only [change_manager] at he ⊢
    split_ifs at he ⊢ <;> simp_all

/-- C2 witness: three failing calls on `exState` leave the state intact and
emit nothing. -/
theorem C2_witness :
    (register_domain exState 2 [1] 7 8).2 = (exState, []) ∧
    (renounce_my_ownership exState 5 [2]).2 = (exState, []) ∧
    (change_manager exState 9 6).2 = (exState, []) :=
  ⟨(C2_all_or_nothing exState 2 [1] [2] 7 8).1
      Error.UnauthorizedCaller (by decide),
   (C2_all_or_nothing exState 5 [2] [2] 7 8).2.2.2.2.2.2.1
      Error.UnauthorizedCaller (by decide),
   (C2_all_or_nothing exState 9 [1] [2] 6 8).2.2.2.2.2.2.2
      Error.UnauthorizedCaller (by decide)⟩

/-- C3 counterexample: in `exState` the manager before the call is account 1;
after the admin (account 0) changes the manager to 6, the emitted
`ChangeManager` event is `(some 6, some 6)` — its first field is the NEW
manager, not the old manager 1 as the claim states. -/
theorem C3_cex :
    exState.manager = 1 ∧
    (change_manager exState 0 6).1 = Except.ok () ∧
    (change_manager exState 0 6).2.2 =
      [Event.ChangeManager (some 6) (some 6)] ∧
    (change_manager exState 0 6).2.2 ≠
      [Event.ChangeManager (some 1) (some 6)] := by
  decide

/-- C3 (amended): `change_manager` called by the Admin overwrites the
manager field and emits one `ChangeManager` event, but — because the field
is assigned before the event is built — BOTH event fields hold the new
manager identity; the rest of the state is untouched. -/
theorem C3_change_manager_event (s : PeerName) (m : AccountId) :
    (change_manager s s.admin m).1 = Except.ok () ∧
    (change_manager s s.admin m).2.1.manager = m ∧
    (change_manager s s.admin m).2.1.records = s.records ∧
    (change_manager s s.admin m).2.1.resolvers = s.resolvers ∧
    (change_manager s s.admin m).2.1.admin = s.admin ∧
    (change_manager s s.admin m).2.2 =
      [Event.ChangeManager (some m) (some m)] := by
  simp [change_manager]

/-- C4: renouncing a registered domain (by the Manager through
`renounce_ownership`, or by its owner through `renounce_my_ownership`)
succeeds, makes `is_domain_exist` return false, and lets the (unchanged)
Manager re-register the same domain successfully. -/
theorem C4_renounce_then_reregister (s : PeerName) (d : List Nat)
    (o r : AccountId) (h : mapContains s.records (get_node d) = true) :
    ((renounce_ownership s s.manager d).1 = Except.ok () ∧
      is_domain_exist (renounce_ownership s s.manager d).2.1 d = false ∧
      (register_domain (renounce_ownership s s.manager d).2.1
        (renounce_ownership s s.manager d).2.1.manager d o r).1 =
        Except.ok ()) ∧
    (∀ ow, mapGet s.records (get_node d) = some ow →
      (renounce_my_ownership s ow d).1 = Except.ok () ∧
      is_domain_exist (renounce_my_ownership s ow d).2.1 d = false ∧
      (register_domain (renounce_my_ownership s ow d).2.1
        (renounce_my_ownership s ow d).2.1.manager d o r).1 =
        Except.ok ()) := by
  have hrem : mapContains (mapRemove s.records (get_node d))
      (get_node d) = false := by
    simp [mapContains, mapGet_mapRemove_self]
  constructor
  · have h1 : renounce_ownership s s.manager d =
        (Except.ok (),
         { s with records := mapRemove s.records (get_node d) }, []) := by
      simp [renounce_ownership, h]
    rw [h1]
    exact ⟨rfl, by simp [is_domain_exist, hrem],
           by simp [register_domain, hrem]⟩
  · intro ow how
    have hauth : authorized s ow (get_node d) = true := by
      simp [authorized, how]
    have h1 : renounce_my_ownership s ow d =
        (Except.ok (),
         { s with records := mapRemove s.records (get_node d) }, []) := by
      simp [renounce_my_ownership, hauth, h]
    rw [h1]
    exact ⟨rfl, by simp [is_domain_exist, hrem],
           by simp [register_domain, hrem]⟩

/-- C4 witness: the renounce-then-reregister cycle on `exState`. -/
theorem C4_witness :
    mapContains exState.records (get_node [1]) = true ∧
    (renounce_ownership exState exState.manager [1]).1 = Except.ok () ∧
    is_domain_exist (renounce_ownership exState exState.manager [1]).2.1 [1]
      = false ∧
    (renounce_my_ownership exState 10 [1]).1 = Except.ok () :=
  let t := C4_renounce_then_reregister exState [1] 7 8 (by decide)
  ⟨by decide, t.1.1, t.1.2.1, (t.2 10 (by decide)).1⟩

/-- C5 counterexample: the owner (account 10) of domain `[1]` transfers the
domain to itself; the transfer succeeds, and afterwards the "previous
owner" 10 can still transfer the domain — the claim that the previous
owner's subsequent transfer always fails with `UnauthorizedCaller` is false
when the new owner equals the previous owner. -/
theorem C5_cex :
    owner exState [1] = some 10 ∧
    (transfer_domain_ownership exState 10 [1] 10).1 = Except.ok () ∧
    (transfer_domain_ownership
        (transfer_domain_ownership exState 10 [1] 10).2.1 10 [1] 99).1 =
      Except.ok () ∧
    (transfer_domain_ownership
        (transfer_domain_ownership exState 10 [1] 10).2.1 10 [1] 99).1 ≠
      Except.error Error.UnauthorizedCaller := by
  decide

/-- C5 (amended): on a registered domain, transfer by a non-owner fails
with `UnauthorizedCaller`; transfer by the owner succeeds and `owner`
then returns the new owner; and — provided the new owner differs from the
previous owner — the previous owner's subsequent `transfer_domain_ownership`
and `renounce_my_ownership` calls on that domain fail with
`UnauthorizedCaller`. -/
theorem C5_transfer_ownership (s : PeerName) (c no ow : AccountId)
    (d : List Nat) (how : mapGet s.records (get_node d) = some ow) :
    (c ≠ ow → (transfer_domain_ownership s c d no).1 =
      Except.error Error.UnauthorizedCaller) ∧
    ((transfer_domain_ownership s ow d no).1 = Except.ok () ∧
     owner (transfer_domain_ownership s ow d no).2.1 d = some no) ∧
    (ow ≠ no →
      (transfer_domain_ownership
        (transfer_domain_ownership s ow d no).2.1 ow d no).1 =
        Except.error Error.UnauthorizedCaller ∧
      (renounce_my_ownership
        (transfer_domain_ownership s ow d no).2.1 ow d).1 =
        Except.error Error.UnauthorizedCaller) := by
  have hcont : mapContains s.records (get_node d) = true := by
    simp [mapContains, how]
  have hauth : authorized s ow (get_node d) = true := by
    simp [authorized, how]
  have htr : transfer_domain_ownership s ow d no =
      (Except.ok (),
       { s with records := mapInsert s.records (get_node d) no },
       [Event.Transfer (get_node d) no, Event.Transfer (get_node d) no]) := by
    simp [transfer_domain_ownership, hcont, hauth, _set_owner]
  refine ⟨?_, ?_, ?_⟩
  · intro hc
    have hauth' : authorized s c (get_node d) = false := by
      simp [authorized, how, hc]
    simp [transfer_domain_ownership, hcont, hauth']
  · rw [htr]
    exact ⟨rfl, by simp [owner, mapGet_mapInsert_self]⟩
  · intro hne
    rw [htr]
    have how' : mapGet (mapInsert s.records (get_node d) no) (get_node d)
        = some no := mapGet_mapInsert_self _ _ _
    have hauth2 : authorized
        { s with records := mapInsert s.records (get_node d) no }
        ow (get_node d) = false := by
      simp [authorized, how', hne]
    have hcont2 : mapContains (mapInsert s.records (get_node d) no)
        (get_node d) = true := by
      simp [mapContains, how']
    constructor
    · simp [transfer_domain_ownership, hcont2, hauth2]
    · simp [renounce_my_ownership, hauth2]

/-- C5 witness: the amended statement evaluated on `exState` (owner 10,
intruder 2, new owner 99). -/
theorem C5_witness :
    (transfer_domain_ownership exState 2 [1] 99).1 =
      Except.error Error.UnauthorizedCaller ∧
    (transfer_domain_ownership exState 10 [1] 99).1 = Except.ok () ∧
    owner (transfer_domain_ownership exState 10 [1] 99).2.1 [1] = some 99 ∧
    (transfer_domain_ownership
        (transfer_domain_ownership exState 10 [1] 99).2.1 10 [1] 99).1 =
      Except.error Error.UnauthorizedCaller :=
  let t := C5_transfer_ownership exState 2 99 10 [1] (by decide)
  ⟨t.1 (by decide), t.2.1.1, t.2.1.2, (t.2.2 (by decide)).1⟩

/-- C6: `set_sub_domain` fails with `NameNotExists` when the parent node
has no Record; fails with `UnauthorizedCaller` when the parent has a Record
owned by someone other than the caller (in particular a former owner after
a transfer, since only the current Record is consulted); and on success it
records the caller as the sub-node's owner and sets the sub-node's
resolver. -/
theorem C6_set_sub_domain (s : PeerName) (c : AccountId) (d sd : List Nat)
    (r : AccountId) :
    (mapContains s.records (get_node d) = false →
      (set_sub_domain s c d sd r).1 = Except.error Error.NameNotExists) ∧
    (∀ ow, mapGet s.records (get_node d) = some ow → c ≠ ow →
      (set_sub_domain s c d sd r).1 =
        Except.error Error.UnauthorizedCaller) ∧
    ((set_sub_domain s c d sd r).1 = Except.ok () →
      mapGet (set_sub_domain s c d sd r).2.1.records (get_subnode d sd) =
        some c ∧
      subdomain_resolver (set_sub_domain s c d sd r).2.1 d sd = some r) := by
  refine ⟨?_, ?_, ?_⟩
  · intro hmiss
    simp [set_sub_domain, hmiss]
  · intro ow how hc
    have hcont : mapContains s.records (get_node d) = true := by
      simp [mapContains, how]
    have hauth : authorized s c (get_node d) = false := by
      simp [authorized, how, hc]
    simp [set_sub_domain, hcont, hauth]
  · intro hok
    by_cases h1 : mapContains s.records (get_node d) = false
    · simp [set_sub_domain, h1] at hok
    · by_cases h2 : authorized s c (get_node d) = false
      · simp [set_sub_domain, h1, h2] at hok
      · by_cases h3 : mapContains s.records (get_subnode d sd) = true
        · simp [set_sub_domain, h1, h2, h3] at hok
        · simp [set_sub_domain, h1, h2, h3, _set_owner, _set_resolver,
                subdomain_resolver, mapGet_mapInsert_self]

/-- C6 witness: the three branches evaluated on `exState` (unregistered
parent `[2]`, non-owner caller 5 on parent `[1]`, owner 10 registering sub
`[9]`). -/
theorem C6_witness :
    (set_sub_domain exState 5 [2] [9] 44).1 =
      Except.error Error.NameNotExists ∧
    (set_sub_domain exState 5 [1] [9] 44).1 =
      Except.error Error.UnauthorizedCaller ∧
    mapGet (set_sub_domain exState 10 [1] [9] 44).2.1.records
      (get_subnode [1] [9]) = some 10 :=
  ⟨(C6_set_sub_domain exState 5 [2] [9] 44).1 (by decide),
   (C6_set_sub_domain exState 5 [1] [9] 44).2.1 10 (by decide) (by decide),
   ((C6_set_sub_domain exState 10 [1] [9] 44).2.2 (by decide)).1⟩

/-- C7: `update_subdomain_resolver` called by the owner of a registered
parent domain always succeeds, overwrites the sub-node's resolver entry
(so `subdomain_resolver` afterwards returns the new resolver), and leaves
the records mapping untouched — no Record of the sub-node is checked or
created, so this works for a subdomain that was never registered. -/
theorem C7_update_subdomain_resolver (s : PeerName) (d sd : List Nat)
    (r ow : AccountId) (how : mapGet s.records (get_node d) = some ow) :
    (update_subdomain_resolver s ow d r sd).1 = Except.ok () ∧
    (update_subdomain_resolver s ow d r sd).2.1.records = s.records ∧
    subdomain_resolver (update_subdomain_resolver s ow d r sd).2.1 d sd =
      some r := by
  have hcont : mapContains s.records (get_node d) = true := by
    simp [mapContains, how]
  have hauth : authorized s ow (get_node d) = true := by
    simp [authorized, how]
  simp [update_subdomain_resolver, hcont, hauth, _set_resolver,
        subdomain_resolver, mapGet_mapInsert_self]

/-- C7 witness: on `exState`, the sub `[9]` of `[1]` was never registered,
yet the owner 10 sets its resolver to 33 and reads it back. -/
theorem C7_witness :
    is_subdomain_exist exState [1] [9] = false ∧
    (update_subdomain_resolver exState 10 [1] 33 [9]).1 = Except.ok () ∧
    subdomain_resolver
      (update_subdomain_resolver exState 10 [1] 33 [9]).2.1 [1] [9] =
      some 33 :=
  let t := C7_update_subdomain_resolver exState [1] [9] 33 10 (by decide)
  ⟨by decide, t.1, t.2.2⟩

/-- Helper: a successful `register_domain` always writes its `resolver`
argument, so the post-state resolver of the domain is the argument. -/
theorem register_domain_sets_resolver (t : PeerName) (c : AccountId)
    (d : List Nat) (o r' : AccountId)
    (hok : (register_domain t c d o r').1 = Except.ok ()) :
    domain_resolver (register_domain t c d o r').2.1 d = some r' := by
  by_cases h1 : c = t.manager
  · by_cases h2 : mapContains t.records (get_node d) = true
    · simp [register_domain, h1, h2] at hok
    · simp [register_domain, h1, h2, _set_owner, _set_resolver,
            domain_resolver, mapGet_mapInsert_self]
  · simp [register_domain, h1] at hok

/-- C8: both renounce operations leave the resolvers mapping unchanged
(whatever their outcome), so a domain resolver `some rr` survives
renouncement; and a later successful re-registration overwrites the stale
resolver with the resolver supplied to `register_domain`. -/
theorem C8_renounce_keeps_resolver (s : PeerName) (c o rr r' : AccountId)
    (d : List Nat) (hres : domain_resolver s d = some rr) :
    (renounce_ownership s c d).2.1.resolvers = s.resolvers ∧
    (renounce_my_ownership s c d).2.1.resolvers = s.resolvers ∧
    domain_resolver (renounce_ownership s c d).2.1 d = some rr ∧
    domain_resolver (renounce_my_ownership s c d).2.1 d = some rr ∧
    ((register_domain (renounce_ownership s c d).2.1
        (renounce_ownership s c d).2.1.manager d o r').1 = Except.ok () →
      domain_resolver (register_domain (renounce_ownership s c d).2.1
        (renounce_ownership s c d).2.1.manager d o r').2.1 d = some r') := by
  have hren : (renounce_ownership s c d).2.1.resolvers = s.resolvers := by
    simp only [renounce_ownership]
    split_ifs <;> rfl
  have hren2 : (renounce_my_ownership s c d).2.1.resolvers = s.resolvers := by
    simp only [renounce_my_ownership]
    split_ifs <;> rfl
  refine ⟨hren, hren2, ?_, ?_, ?_⟩
  · unfold domain_resolver at hres ⊢
    rw [hren]
    exact hres
  · unfold domain_resolver at hres ⊢
    rw [hren2]
    exact hres
  · intro hok
    exact register_domain_sets_resolver _ _ _ _ _ hok

/-- C8 witness: on `exState`, the resolver 20 of `[1]` survives the
Manager's renouncement, and a re-registration with resolver 8 overwrites
it. -/
theorem C8_witness :
    domain_resolver exState [1] = some 20 ∧
    domain_resolver (renounce_ownership exState 1 [1]).2.1 [1] = some 20 ∧
    domain_resolver (register_domain (renounce_ownership exState 1 [1]).2.1
      (renounce_ownership exState 1 [1]).2.1.manager [1] 7 8).2.1 [1] =
      some 8 :=
  let t := C8_renounce_keeps_resolver exState 1 7 20 8 [1] (by decide)
  ⟨by decide, t.2.2.1, t.2.2.2.2 (by decide)⟩

/-- C9: `renounce_my_ownership` never reports `NameNotExists` — when the
domain has no Record the `authorized` guard already fails (no owner can
match the caller) and the call returns `UnauthorizedCaller`; in every
other case the existence check cannot fail. -/
theorem C9_renounce_my_ownership_no_name_not_exists (s : PeerName)
    (c : AccountId) (d : List Nat) :
    (mapContains s.records (get_node d) = false →
      (renounce_my_ownership s c d).1 =
        Except.error Error.UnauthorizedCaller) ∧
    (renounce_my_ownership s c d).1 ≠ Except.error Error.NameNotExists := by
  constructor
  · intro hmiss
    have hn : mapGet s.records (get_node d) = none := by
      cases hmg : mapGet s.records (get_node d) with
      | none => rfl
      | some a => simp [mapContains, hmg] at hmiss
    have hauth : authorized s c (get_node d) = false := by
      simp [authorized, hn]
    simp [renounce_my_ownership, hauth]
  · by_cases hauth : authorized s c (get_node d) = false
    · simp [renounce_my_ownership, hauth]
    · have hauth' : authorized s c (get_node d) = true := by
        cases hb : authorized s c (get_node d) with
        | false => exact absurd hb hauth
        | true => rfl
      have hget : some c = mapGet s.records (get_node d) := by
        by_contra hne
        have : authorized s c (get_node d) = false := by
          simp [authorized, hne]
        rw [this] at hauth'
        cases hauth'
      have hcont : mapContains s.records (get_node d) = true := by
        unfold mapContains
        rw [← hget]
        rfl
      simp [renounce_my_ownership, hauth', hcont]

/-- C9 witness: on `exState`, the domain `[2]` has no Record and caller 5
receives `UnauthorizedCaller`. -/
theorem C9_witness :
    mapContains exState.records (get_node [2]) = false ∧
    (renounce_my_ownership exState 5 [2]).1 =
      Except.error Error.UnauthorizedCaller :=
  ⟨by decide,
   (C9_renounce_my_ownership_no_name_not_exists exState 5 [2]).1 (by decide)⟩

/-- C10: `_set_owner` emits a `Transfer` event on every call; hence a
successful `register_domain` emits `Transfer`, `NewResolver` and
`Register` (in that order), a successful `set_sub_domain` likewise for the
sub-node with the caller as owner, and a successful
`transfer_domain_ownership` emits the `Transfer` event twice with the same
node and new owner. -/
theorem C10_set_owner_transfer_events (s : PeerName) (c no o r : AccountId)
    (nd : Node) (d sd : List Nat) :
    (_set_owner s nd o).2 = [Event.Transfer nd o] ∧
    ((register_domain s c d o r).1 = Except.ok () →
      (register_domain s c d o r).2.2 =
        [Event.Transfer (get_node d) o, Event.NewResolver (get_node d) r,
         Event.Register (get_node d) o]) ∧
    ((set_sub_domain s c d sd r).1 = Except.ok () →
      (set_sub_domain s c d sd r).2.2 =
        [Event.Transfer (get_subnode d sd) c,
         Event.NewResolver (get_subnode d sd) r,
         Event.Register (get_subnode d sd) c]) ∧
    ((transfer_domain_ownership s c d no).1 = Except.ok () →
      (transfer_domain_ownership s c d no).2.2 =
        [Event.Transfer (get_node d) no, Event.Transfer (get_node d) no]) := by
  refine ⟨rfl, ?_, ?_, ?_⟩
  · intro hok
    by_cases h1 : c = s.manager
    · by_cases h2 : mapContains s.records (get_node d) = true
      · simp [register_domain, h1, h2] at hok
      · simp [register_domain, h1, h2, _set_owner, _set_resolver]
    · simp [register_domain, h1] at hok
  · intro hok
    by_cases h1 : mapContains s.records (get_node d) = false
    · simp [set_sub_domain, h1] at hok
    · by_cases h2 : authorized s c (get_node d) = false
      · simp [set_sub_domain, h1, h2] at hok
      · by_cases h3 : mapContains s.records (get_subnode d sd) = true
        · simp [set_sub_domain, h1, h2, h3] at hok
        · simp [set_sub_domain, h1, h2, h3, _set_owner, _set_resolver]
  · intro hok
    by_cases h1 : mapContains s.records (get_node d) = false
    · simp [transfer_domain_ownership, h1] at hok
    · by_cases h2 : authorized s c (get_node d) = false
      · simp [transfer_domain_ownership, h1, h2] at hok
      · simp [transfer_domain_ownership, h1, h2, _set_owner]

/-- C10 witness: the event lists of a fresh registration by the Manager
and of a transfer by the owner on `exState`. -/
theorem C10_witness :
    (_set_owner exState (get_node [2]) 7).2 =
      [Event.Transfer (get_node [2]) 7] ∧
    (register_domain exState 1 [2] 7 8).2.2 =
      [Event.Transfer (get_node [2]) 7, Event.NewResolver (get_node [2]) 8,
       Event.Register (get_node [2]) 7] ∧
    (transfer_domain_ownership exState 10 [1] 99).2.2 =
      [Event.Transfer (get_node [1]) 99, Event.Transfer (get_node [1]) 99] :=
  ⟨(C10_set_owner_transfer_events exState 1 99 7 8 (get_node [2]) [2] [9]).1,
   (C10_set_owner_transfer_events exState 1 99 7 8 (get_node [2]) [2]
      [9]).2.1 (by decide),
   (C10_set_owner_transfer_events exState 10 99 7 8 (get_node [2]) [1]
      [9]).2.2.2 (by decide)⟩

end PeerNameService
